import Mathlib

/-!
Verification of the locomotion core of a WebXR house-walkthrough application.

The embedding models, over exact rationals, the ballistic arc caster
(`Arccaster.intersectObject`), the arc visualizer (`TeleportationArc.update`),
the teleportation state machine (`TeleportationControls` and the per-frame
driving policy), the reference-space rebasing (`ThreeXRSession.setOffset`),
and the controller connection handlers.  External collaborators (the three.js
raycaster and the WebXR rigid-transform API) are modelled by their documented
exact-arithmetic semantics.
-/

/-- A 3D vector with exact rational coordinates, embedding THREE.Vector3. -/
structure Vec3 where
  x : ℚ
  y : ℚ
  z : ℚ
deriving DecidableEq

/-- A quaternion with rational components, embedding THREE.Quaternion. -/
structure Quat where
  x : ℚ
  y : ℚ
  z : ℚ
  w : ℚ
deriving DecidableEq

/-- Componentwise negation, embedding THREE.Vector3.negate. -/
def Vec3.neg (a : Vec3) : Vec3 := ⟨-a.x, -a.y, -a.z⟩

/-- Componentwise addition, embedding THREE.Vector3.add. -/
def Vec3.add (a b : Vec3) : Vec3 := ⟨a.x + b.x, a.y + b.y, a.z + b.z⟩

/-- Embedding of THREE.Vector3.addScaledVector: `this + v * s`. -/
def Vec3.addScaledVector (a v : Vec3) (s : ℚ) : Vec3 :=
  ⟨a.x + v.x * s, a.y + v.y * s, a.z + v.z * s⟩

/-- Embedding of THREE.Vector3.applyQuaternion: rotate `v` by `q` via
`v + q.w * t + cross(q.xyz, t)` with `t = 2 * cross(q.xyz, v)`. -/
def Vec3.applyQuaternion (v : Vec3) (q : Quat) : Vec3 :=
  let tx := 2 * (q.y * v.z - q.z * v.y)
  let ty := 2 * (q.z * v.x - q.x * v.z)
  let tz := 2 * (q.x * v.y - q.y * v.x)
  ⟨v.x + q.w * tx + (q.y * tz - q.z * ty),
   v.y + q.w * ty + (q.z * tx - q.x * tz),
   v.z + q.w * tz + (q.x * ty - q.y * tx)⟩

/-- Conjugate of a quaternion; for unit quaternions this is the inverse
rotation (THREE.Quaternion.invert conjugates and assumes unit length). -/
def Quat.conj (q : Quat) : Quat := ⟨-q.x, -q.y, -q.z, q.w⟩

/-- A raycast hit, embedding THREE.Intersection: the hit point and the
(optional) surface normal.  The struck scene node is not needed by any
property and is omitted. -/
structure Intersection where
  point : Vec3
  normal : Option Vec3
deriving DecidableEq

/-- Semantics of one segment query against the scene: `cast a b` embeds
configuring the shared THREE.Raycaster with `ray.origin = a`,
`ray.direction = normalize(b - a)`, `near = 0`, `far = dist(a, b)` and
calling `intersectObject(object, true)`, returning the nearest hit
(`intersections[0]`) or `none`.  In exact arithmetic that ray, restricted
to `[near, far]`, is precisely the segment from `a` to `b`, so the set of
reachable points is fully determined by the two sample points. -/
def SegmentCast : Type := Vec3 → Vec3 → Option Intersection

/-- Result record of `Arccaster.intersectObject`: the sampled polyline and
the optional terminating hit. -/
structure ArcResult where
  trace : List Vec3
  intersection : Option Intersection

/-- The fixed integration time step (`const step = 0.2`). -/
def timeStep : ℚ := 1 / 5

/-- The ballistic arc caster; holds the gravity vector.  The `raycaster`
field of the source class is abstracted into the `SegmentCast` argument of
`intersectObject`. -/
structure Arccaster where
  gravity : Vec3

/-- The integration loop of `Arccaster.intersectObject`, with the remaining
iteration count as fuel (the source runs `for (let x = 0; x < 50; x++)`).
Each iteration adds `gravity * step` to the velocity, then `velocity * step`
to the position; if the trace is nonempty it casts the segment from the last
trace point to the new position and, on a hit, appends the hit point and
stops; otherwise the new position is appended. -/
def arcLoop (gravity : Vec3) (cast : SegmentCast) :
    ℕ → Vec3 → Vec3 → List Vec3 → ArcResult
  | 0, _, _, trace => ⟨trace, none⟩
  | n + 1, position, velocity, trace =>
    let velocity2 := velocity.addScaledVector gravity timeStep
    let position2 := position.addScaledVector velocity2 timeStep
    match trace.getLast? with
    | some lastPosition =>
      match cast lastPosition position2 with
      | some intersection => ⟨trace ++ [intersection.point], some intersection⟩
      | none => arcLoop gravity cast n position2 velocity2 (trace ++ [position2])
    | none => arcLoop gravity cast n position2 velocity2 (trace ++ [position2])

/-- Embedding of `Arccaster.intersectObject(object, position, rotation)`:
clones the starting position, initializes the velocity as `(0, 0, -1)`
rotated by `rotation`, seeds the trace with the start point and runs 50
integration steps. -/
def Arccaster.intersectObject (self : Arccaster) (cast : SegmentCast)
    (position : Vec3) (rotation : Quat) : ArcResult :=
  let velocity := (Vec3.mk 0 0 (-1)).applyQuaternion rotation
  arcLoop self.gravity cast 50 position velocity [position]

/-- Modelled from the spec: the reference trajectory algorithm as worded in
the specification — velocity starts as the unit forward vector rotated by
the starting orientation; at most 50 steps of size 0.2; each step first adds
`gravity * step` to the velocity and then `velocity * step` to the position;
the segment from the previous sample to the new one is cast (range exactly
their separation) and a hit appends the nearest hit point as the final
sample and stops, otherwise the new sample is appended; an exhausted budget
yields no collision.  The previous sample is carried explicitly. -/
def specArcLoop (gravity : Vec3) (cast : SegmentCast) :
    ℕ → Vec3 → Vec3 → List Vec3 → ArcResult
  | 0, _, _, samples => ⟨samples, none⟩
  | n + 1, prev, velocity, samples =>
    let velocity2 := velocity.addScaledVector gravity timeStep
    let next := prev.addScaledVector velocity2 timeStep
    match cast prev next with
    | some hit => ⟨samples ++ [hit.point], some hit⟩
    | none => specArcLoop gravity cast n next velocity2 (samples ++ [next])

/-- Modelled from the spec: the full reference trajectory simulation. -/
def specTrajectory (gravity : Vec3) (cast : SegmentCast)
    (position : Vec3) (rotation : Quat) : ArcResult :=
  specArcLoop gravity cast 50 position
    ((Vec3.mk 0 0 (-1)).applyQuaternion rotation) [position]

/-- The velocity after `n` further integration steps, starting from
velocity `vel`: each step applies `addScaledVector gravity timeStep`. -/
def velAt (vel gravity : Vec3) : ℕ → Vec3
  | 0 => vel
  | n + 1 => velAt (vel.addScaledVector gravity timeStep) gravity n

/-- The samples of a trajectory up to (and excluding) the appended hit
point when a collision truncated it; the whole trace otherwise.  The
cumulative path length strictly grows across this list precisely when its
consecutive entries are distinct. -/
def pathSamples (r : ArcResult) : List Vec3 :=
  match r.intersection with
  | some _ => r.trace.dropLast
  | none => r.trace

/-- A rigid transform built from a position and an orientation, embedding
XRRigidTransform: its action on a point is rotation by the orientation
followed by translation by the position. -/
structure RigidTransform where
  position : Vec3
  orientation : Quat

/-- The action of a rigid transform on a point. -/
def RigidTransform.apply (t : RigidTransform) (v : Vec3) : Vec3 :=
  (v.applyQuaternion t.orientation).add t.position

/-- The inverse of a rigid transform with unit orientation (the WebXR
`XRRigidTransform.inverse`): conjugate orientation, and the negated
position rotated by that conjugate. -/
def RigidTransform.inverse (t : RigidTransform) : RigidTransform :=
  ⟨t.position.neg.applyQuaternion t.orientation.conj, t.orientation.conj⟩

/-- The quaternion of a yaw rotation about the vertical axis `(0, 1, 0)`,
parametrized by the cosine `c` and sine `s` of half the yaw angle (this is
`THREE.Quaternion.setFromAxisAngle((0,1,0), angle)` with `c = cos(angle/2)`
and `s = sin(angle/2)`). -/
def yawQuaternion (c s : ℚ) : Quat := ⟨0, s, 0, c⟩

/-- Embedding of `ThreeXRSession.setOffset(_position, angle)`: build the
yaw-only rotation of `-angle` about the vertical axis (half-angle cosine
`c`, sine `-s`, where `(c, s)` are the half-angle cosine and sine of
`+angle`), copy the target position into a fresh vector, negate it, rotate
it by that rotation, and return the rigid transform handed to
`getOffsetReferenceSpace` to derive the installed frame. -/
def setOffset (targetPosition : Vec3) (c s : ℚ) : RigidTransform :=
  let rotation := yawQuaternion c (-s)
  let position := targetPosition.neg.applyQuaternion rotation
  ⟨position, rotation⟩

/-- Embedding of `isGroundIntersection`: accept iff the y-component of the
hit normal — 0 when the hit carries no normal (`normal?.y ?? 0`) — exceeds
the threshold 0.9. -/
def isGroundIntersection (i : Intersection) : Bool :=
  decide (9 / 10 <
    (match i.normal with
     | some n => n.y
     | none => (0 : ℚ)))

/-- The observable per-controller locomotion state: the
`TeleportationControls` flags, the `TeleportationArc` node pose, the marker
pose and visibility, the drawn polyline, the connection status, and a log
of the `setOffset` calls made on the session (the active reference frame is
the base frame offset by the last entry).  `castCount` is a ghost counter
of simulator invocations used to express that the simulator did or did not
run. -/
structure World where
  isTeleporting : Bool
  teleportationAngle : ℚ
  arcPos : Vec3
  arcRot : Quat
  markerPos : Vec3
  markerYaw : ℚ
  markerVisible : Bool
  lineVisible : Bool
  linePoints : List Vec3
  castCount : ℕ
  offsetLog : List (Vec3 × ℚ)
  connected : Bool

/-- Embedding of `TeleportationArc.update(object, angle)`: run the arc
caster from the arc node's world pose (the arc is a root-level scene child,
so its world pose is its local pose), rebuild the polyline geometry from
the returned trace, and if a collision exists and passes the validity
predicate move the marker to the hit point — setting its yaw from `angle`
only when the hit carries a normal — and show it; otherwise hide it. -/
def arcUpdate (a : Arccaster) (cast : SegmentCast)
    (validate : Intersection → Bool) (w : World) (angle : ℚ) : World :=
  let r := a.intersectObject cast w.arcPos w.arcRot
  let w1 := { w with linePoints := r.trace, castCount := w.castCount + 1 }
  match r.intersection with
  | some i =>
    if validate i then
      { w1 with
        markerPos := i.point
        markerYaw := if i.normal.isSome then angle else w1.markerYaw
        markerVisible := true }
    else { w1 with markerVisible := false }
  | none => { w1 with markerVisible := false }

/-- Embedding of `TeleportationControls.update(object, angle)`: while
teleporting, store the angle, move the arc node to the controller's pose
and run the arc update (with the default ground validity predicate, as
constructed in `createController`); in every case set the polyline
visibility to the teleporting flag. -/
def controlsUpdate (a : Arccaster) (cast : SegmentCast) (w : World)
    (controllerPos : Vec3) (controllerRot : Quat) (angle : ℚ) : World :=
  let w1 :=
    if w.isTeleporting then
      arcUpdate a cast isGroundIntersection
        { w with
            teleportationAngle := angle
            arcPos := controllerPos
            arcRot := controllerRot } angle
    else w
  { w1 with lineVisible := w1.isTeleporting }

/-- Embedding of `TeleportationControls._stop()`. -/
def stopControls (w : World) : World :=
  { w with isTeleporting := false, lineVisible := false, markerVisible := false }

/-- Embedding of `TeleportationControls.cancel()`: just `_stop()`. -/
def cancelControls (w : World) : World := stopControls w

/-- Embedding of `TeleportationControls.commit(session)`: `_stop()`, then
`session.setOffset(marker.position, teleportationAngle)`; the call is
recorded on the offset log. -/
def commitControls (w : World) : World :=
  let w1 := stopControls w
  { w1 with offsetLog := w1.offsetLog ++ [(w1.markerPos, w1.teleportationAngle)] }

/-- Embedding of `TeleportationControls.start()`. -/
def startControls (w : World) : World := { w with isTeleporting := true }

/-- Embedding of `ThreeXRController.handleControllerDisconnected`: if no
controller is connected do nothing, otherwise remove and clear the
connected controller.  Nothing else is touched. -/
def handleControllerDisconnected (w : World) : World :=
  if w.connected then { w with connected := false } else w

/-- One tick of the per-frame driving policy (the `update` closure
registered on the render event in `createController`): with no connected
controller it returns immediately; otherwise it reads the stick axes
`(x, y) = (axes[2], axes[3])`.  While teleporting, both axes exactly zero
commit when the marker is visible and cancel otherwise; any other
deflection re-runs the controls update.  While idle, a deflection with
`sqrt(x^2 + y^2) > 0.5` — embedded as the equivalent exact condition
`x^2 + y^2 > 1/4` — starts aiming.  `teleportAngle` is the heading
`angleOf(-y, -x) + controllerYaw` the source computes from the same inputs
via `atan2`; being transcendental it is supplied as an oracle input.  The
button-driven house elevation changes act on scene geometry outside the
modelled state. -/
def frameUpdate (a : Arccaster) (cast : SegmentCast) (w : World)
    (controllerPos : Vec3) (controllerRot : Quat)
    (x y teleportAngle : ℚ) : World :=
  if w.connected then
    if w.isTeleporting then
      if x = 0 ∧ y = 0 then
        if w.markerVisible then commitControls w else cancelControls w
      else controlsUpdate a cast w controllerPos controllerRot teleportAngle
    else if 1 / 4 < x ^ 2 + y ^ 2 then startControls w
    else w
  else w

/-- The targeting mode of a WebXR input source (`XRTargetRayMode`). -/
inductive XRTargetRayMode
  | gaze
  | trackedPointer
  | screen
deriving DecidableEq

/-- A WebXR gamepad: analog axis values and button pressed states. -/
structure Gamepad where
  axes : List ℚ
  buttons : List Bool
deriving DecidableEq

/-- A WebXR input source as consumed by the connection handler. -/
structure XRInputSource where
  targetRayMode : XRTargetRayMode
  gamepad : Option Gamepad
deriving DecidableEq

/-- The visual representation built for a connecting device. -/
inductive ControllerVisual
  | pointerLine
  | gazeRing
deriving DecidableEq

/-- Embedding of `buildController(data)`: tagged dispatch on the targeting
mode; the default branch raises. -/
def buildController (data : XRInputSource) : Except String ControllerVisual :=
  match data.targetRayMode with
  | .trackedPointer => .ok .pointerLine
  | .gaze => .ok .gazeRing
  | .screen => .error "Unknown controller type"

/-- The state held by a successfully connected controller. -/
structure ThreeXRConnectedController where
  gamepad : Gamepad
  controllerMesh : ControllerVisual
deriving DecidableEq

/-- Embedding of the `ThreeXRConnectedController` constructor: raise when
the input source has no gamepad, or when its gamepad exposes fewer than 4
analog axes; otherwise build the visual for its targeting mode. -/
def mkConnectedController (inputSource : XRInputSource) :
    Except String ThreeXRConnectedController :=
  match inputSource.gamepad with
  | none => .error "Gamepad not available"
  | some g =>
    if g.axes.length < 4 then .error "Gamepad axes not available"
    else
      match buildController inputSource with
      | .error e => .error e
      | .ok mesh => .ok ⟨g, mesh⟩

/-- Embedding of `ThreeXRController.handleControllerConnected`: raise when
a controller is already connected in this slot, otherwise construct the
connected controller. -/
def handleControllerConnected
    (connectedController : Option ThreeXRConnectedController)
    (data : XRInputSource) : Except String ThreeXRConnectedController :=
  match connectedController with
  | some _ => .error "Controller already connected"
  | none => mkConnectedController data

/-- A segment cast that never reports a hit. -/
def castNone : SegmentCast := fun _ _ => none

/-- A connected, idle controller state with hidden visuals and an empty
offset log, used to instantiate witnesses. -/
def sampleIdleWorld : World :=
  ⟨false, 0, ⟨0, 0, 0⟩, ⟨0, 0, 0, 1⟩, ⟨0, 0, 0⟩, 0, false, false, [], 0,
    [], true⟩

/-- A connected, aiming controller state with visible arc and marker. -/
def sampleAimingVisible : World :=
  { sampleIdleWorld with
      isTeleporting := true
      markerVisible := true
      lineVisible := true }

/-- A connected, aiming controller state with hidden marker. -/
def sampleAimingHidden : World :=
  { sampleIdleWorld with isTeleporting := true, lineVisible := true }

lemma arcLoop_eq_specArcLoop (g : Vec3) (cast : SegmentCast) :
    ∀ (n : ℕ) (pos vel : Vec3) (trace : List Vec3),
      trace.getLast? = some pos →
      arcLoop g cast n pos vel trace = specArcLoop g cast n pos vel trace := by
  intro n
  induction n with
  | zero => intro pos vel trace _; rfl
  | succ n ih =>
    intro pos vel trace h
    simp only [arcLoop, specArcLoop, h]
    cases hc : cast pos
        (pos.addScaledVector (vel.addScaledVector g timeStep) timeStep) with
    | some i => rfl
    | none =>
      exact ih _ _ _ (List.getLast?_append_of_ne_nil trace (by simp))

/-- C1: for every gravity vector, scene cast, starting position and starting
orientation, `Arccaster.intersectObject` computes exactly the reference
algorithm of the specification: velocity initialized as the rotated unit
forward vector, at most 50 steps of size 0.2, gravity applied to velocity
before velocity is applied to position, each segment cast with range exactly
the distance between consecutive samples, the nearest hit point appended as
the final sample with the collision returned and iteration stopped, and no
collision when the budget is exhausted. -/
theorem trajectory_refines_reference (a : Arccaster) (cast : SegmentCast)
    (p : Vec3) (q : Quat) :
    a.intersectObject cast p q = specTrajectory a.gravity cast p q := by
  unfold Arccaster.intersectObject specTrajectory
  exact arcLoop_eq_specArcLoop a.gravity cast 50 p _ [p] rfl

lemma addScaledVector_timeStep_ne (p v : Vec3) (hv : v ≠ ⟨0, 0, 0⟩) :
    p.addScaledVector v timeStep ≠ p := by
  intro h
  apply hv
  cases p with
  | mk px py pz =>
    cases v with
    | mk vx vy vz =>
      simp only [Vec3.addScaledVector, timeStep, Vec3.mk.injEq] at h ⊢
      obtain ⟨h1, h2, h3⟩ := h
      refine ⟨by linarith, by linarith, by linarith⟩

lemma arcLoop_sound (g : Vec3) (cast : SegmentCast) :
    ∀ (n : ℕ) (pos vel : Vec3) (trace : List Vec3),
      trace.getLast? = some pos →
      (arcLoop g cast n pos vel trace).trace.length ≤ trace.length + n ∧
      (List.Chain' (fun a b => a ≠ b) trace →
        (∀ i < n, velAt vel g (i + 1) ≠ ⟨0, 0, 0⟩) →
        List.Chain' (fun a b => a ≠ b)
          (pathSamples (arcLoop g cast n pos vel trace))) := by
  intro n
  induction n with
  | zero =>
    intro pos vel trace h
    exact ⟨Nat.le_refl _, fun hch _ => hch⟩
  | succ n ih =>
    intro pos vel trace h
    simp only [arcLoop, h]
    cases hc : cast pos
        (pos.addScaledVector (vel.addScaledVector g timeStep) timeStep) with
    | some i =>
      constructor
      · simp only [List.length_append, List.length_singleton]
        omega
      · intro hch _
        simpa [pathSamples, List.dropLast_concat] using hch
    | none =>
      have hlast : (trace ++ [pos.addScaledVector
          (vel.addScaledVector g timeStep) timeStep]).getLast? =
          some (pos.addScaledVector (vel.addScaledVector g timeStep) timeStep) :=
        List.getLast?_append_of_ne_nil trace (by simp)
      obtain ⟨hlen, hchain⟩ := ih _ _ _ hlast
      constructor
      · calc (arcLoop g cast n _ _ _).trace.length
            ≤ (trace ++ [_]).length + n := hlen
          _ = trace.length + (n + 1) := by simp [List.length_append]; omega
      · intro hch hvel
        apply hchain
        · rw [List.chain'_append]
          refine ⟨hch, List.chain'_singleton _, ?_⟩
          intro a ha b hb
          rw [h] at ha
          simp only [List.head?_cons, Option.mem_some_iff] at ha hb
          subst ha; subst hb
          have h0 := hvel 0 (Nat.succ_pos n)
          exact fun heq => addScaledVector_timeStep_ne pos _ h0 heq.symm
        · intro i hi
          exact hvel (i + 1) (Nat.succ_lt_succ hi)

/-- C5 (amended): the returned sample sequence never exceeds 51 points, and
whenever no step velocity `velAt v0 gravity (i+1)` (`i < 50`, with `v0` the
rotated unit forward vector) is the zero vector, consecutive samples up to
the collision truncation point are pairwise distinct — equivalently, the
cumulative path length strictly grows sample-to-sample.  Without the
velocity proviso, a gravity vector that cancels the forward velocity makes
consecutive samples coincide. -/
theorem trajectory_bound_and_growth (a : Arccaster) (cast : SegmentCast)
    (p : Vec3) (q : Quat) :
    (a.intersectObject cast p q).trace.length ≤ 51 ∧
    ((∀ i < 50,
        velAt ((Vec3.mk 0 0 (-1)).applyQuaternion q) a.gravity (i + 1) ≠
          ⟨0, 0, 0⟩) →
      List.Chain' (fun s t => s ≠ t)
        (pathSamples (a.intersectObject cast p q))) := by
  obtain ⟨hlen, hchain⟩ :=
    arcLoop_sound a.gravity cast 50 p
      ((Vec3.mk 0 0 (-1)).applyQuaternion q) [p] rfl
  exact ⟨by simpa using hlen, fun hv => hchain (List.chain'_singleton p) hv⟩

lemma velAt_zero_gravity (vel : Vec3) (n : ℕ) :
    velAt vel ⟨0, 0, 0⟩ n = vel := by
  induction n generalizing vel with
  | zero => rfl
  | succ n ih =>
    have h : vel.addScaledVector ⟨0, 0, 0⟩ timeStep = vel := by
      cases vel with
      | mk a b c => simp [Vec3.addScaledVector]
    simp only [velAt, h]
    exact ih vel

lemma forwardVelocity_id :
    (Vec3.mk 0 0 (-1)).applyQuaternion ⟨0, 0, 0, 1⟩ = ⟨0, 0, -1⟩ := by
  simp [Vec3.applyQuaternion]

/-- Witness for the amended C5 theorem at gravity zero, identity
orientation, a cast that never hits and start `(0,0,0)`. -/
theorem trajectory_bound_and_growth_witness :
    ((Arccaster.mk ⟨0, 0, 0⟩).intersectObject (fun _ _ => none) ⟨0, 0, 0⟩
        ⟨0, 0, 0, 1⟩).trace.length ≤ 51 ∧
    List.Chain' (fun s t => s ≠ t)
      (pathSamples ((Arccaster.mk ⟨0, 0, 0⟩).intersectObject
        (fun _ _ => none) ⟨0, 0, 0⟩ ⟨0, 0, 0, 1⟩)) :=
  ⟨(trajectory_bound_and_growth (Arccaster.mk ⟨0, 0, 0⟩) (fun _ _ => none)
      ⟨0, 0, 0⟩ ⟨0, 0, 0, 1⟩).1,
   (trajectory_bound_and_growth (Arccaster.mk ⟨0, 0, 0⟩) (fun _ _ => none)
      ⟨0, 0, 0⟩ ⟨0, 0, 0, 1⟩).2 (by
        intro i _
        rw [velAt_zero_gravity, forwardVelocity_id]
        intro h
        simpa using congrArg Vec3.z h)⟩

lemma arcLoop_trace_take (g : Vec3) (cast : SegmentCast) :
    ∀ (n : ℕ) (pos vel : Vec3) (trace : List Vec3) (k : ℕ), k ≤ trace.length →
      (arcLoop g cast n pos vel trace).trace.take k = trace.take k := by
  intro n
  induction n with
  | zero => intro pos vel trace k _; rfl
  | succ n ih =>
    intro pos vel trace k hk
    cases h1 : trace.getLast? with
    | none =>
      simp only [arcLoop, h1]
      rw [ih _ _ _ k (by simp; omega), List.take_append_of_le_length hk]
    | some lastPosition =>
      simp only [arcLoop, h1]
      cases h2 : cast lastPosition
          (pos.addScaledVector (vel.addScaledVector g timeStep) timeStep) with
      | some i => exact List.take_append_of_le_length hk
      | none =>
        rw [ih _ _ _ k (by simp; omega), List.take_append_of_le_length hk]

lemma arcLoop_none_cast (g : Vec3) :
    ∀ (n : ℕ) (pos vel : Vec3) (trace : List Vec3),
      (arcLoop g (fun _ _ => none) n pos vel trace).intersection = none := by
  intro n
  induction n with
  | zero => intro pos vel trace; rfl
  | succ n ih =>
    intro pos vel trace
    cases h1 : trace.getLast? with
    | none => simp only [arcLoop, h1]; exact ih _ _ _
    | some lastPosition => simp only [arcLoop, h1]; exact ih _ _ _

lemma arcLoop_step_none (g : Vec3) (cast : SegmentCast) (n : ℕ)
    (pos vel : Vec3) (trace : List Vec3) (last : Vec3)
    (h1 : trace.getLast? = some last)
    (h2 : cast last
      (pos.addScaledVector (vel.addScaledVector g timeStep) timeStep) = none) :
    arcLoop g cast (n + 1) pos vel trace =
      arcLoop g cast n
        (pos.addScaledVector (vel.addScaledVector g timeStep) timeStep)
        (vel.addScaledVector g timeStep)
        (trace ++
          [pos.addScaledVector (vel.addScaledVector g timeStep) timeStep]) := by
  simp only [arcLoop, h1, h2]

/-- C5 counterexample to the claim as stated: with gravity `(0, 0, 5)` and
the identity orientation, the first integration step cancels the velocity,
so the first two samples coincide and the cumulative path length does not
strictly grow, although no collision truncated the trajectory. -/
theorem trajectory_strict_growth_cex :
    ((Arccaster.mk ⟨0, 0, 5⟩).intersectObject (fun _ _ => none) ⟨0, 0, 0⟩
        ⟨0, 0, 0, 1⟩).intersection = none ∧
    ((Arccaster.mk ⟨0, 0, 5⟩).intersectObject (fun _ _ => none) ⟨0, 0, 0⟩
        ⟨0, 0, 0, 1⟩).trace.take 2 = [⟨0, 0, 0⟩, ⟨0, 0, 0⟩] := by
  have hvel : (Vec3.mk 0 0 (-1)).addScaledVector ⟨0, 0, 5⟩ timeStep =
      ⟨0, 0, 0⟩ := by
    simp only [Vec3.addScaledVector, timeStep, Vec3.mk.injEq]
    norm_num
  constructor
  · exact arcLoop_none_cast _ 50 _ _ _
  · show (arcLoop ⟨0, 0, 5⟩ (fun _ _ => none) 50 ⟨0, 0, 0⟩
      ((Vec3.mk 0 0 (-1)).applyQuaternion ⟨0, 0, 0, 1⟩)
      [⟨0, 0, 0⟩]).trace.take 2 = _
    rw [forwardVelocity_id, show (50 : ℕ) = 49 + 1 from rfl,
      arcLoop_step_none ⟨0, 0, 5⟩ (fun _ _ => none) 49 ⟨0, 0, 0⟩ ⟨0, 0, -1⟩
        [⟨0, 0, 0⟩] ⟨0, 0, 0⟩ rfl rfl, hvel,
      arcLoop_trace_take _ _ 49 _ _ _ 2 (by simp)]
    have hpos : (Vec3.mk 0 0 0).addScaledVector ⟨0, 0, 0⟩ timeStep =
        ⟨0, 0, 0⟩ := by
      simp only [Vec3.addScaledVector, Vec3.mk.injEq]
      norm_num
    rw [hpos]
    rfl

/-- C2: after `setOffset(P, angle)` (the yaw angle given by its half-angle
cosine and sine `(c, s)` on the unit circle), applying the inverse of the
installed offset transform to the origin recovers `P` exactly — hence
within the claimed `1e-3` absolute tolerance — and the recovered
orientation is exactly the yaw rotation by `+angle`, hence the recovered
yaw equals the committed angle modulo `2*pi` well within `1e-3` radians. -/
theorem setOffset_roundtrip (P : Vec3) (c s : ℚ) (h : c ^ 2 + s ^ 2 = 1) :
    (setOffset P c s).inverse.apply ⟨0, 0, 0⟩ = P ∧
    (setOffset P c s).inverse.orientation = yawQuaternion c s := by
  obtain ⟨px, py, pz⟩ := P
  constructor
  · simp only [setOffset, RigidTransform.inverse, RigidTransform.apply,
      yawQuaternion, Quat.conj, Vec3.applyQuaternion, Vec3.neg, Vec3.add,
      Vec3.mk.injEq]
    refine ⟨?_, ?_, ?_⟩
    · ring_nf
      linear_combination (4 * s ^ 2 * px) * h
    · ring
    · ring_nf
      linear_combination (4 * s ^ 2 * pz) * h
  · simp [setOffset, RigidTransform.inverse, Quat.conj, yawQuaternion]

/-- Witness for the C2 round trip at `P = (1, 2, 3)` and the yaw whose
half-angle cosine and sine are `(3/5, 4/5)`. -/
theorem setOffset_roundtrip_witness :
    ((3 : ℚ) / 5) ^ 2 + ((4 : ℚ) / 5) ^ 2 = 1 ∧
    ((setOffset ⟨1, 2, 3⟩ (3 / 5) (4 / 5)).inverse.apply ⟨0, 0, 0⟩ =
        ⟨1, 2, 3⟩ ∧
      (setOffset ⟨1, 2, 3⟩ (3 / 5) (4 / 5)).inverse.orientation =
        yawQuaternion (3 / 5) (4 / 5)) :=
  ⟨by norm_num, setOffset_roundtrip ⟨1, 2, 3⟩ (3 / 5) (4 / 5) (by norm_num)⟩

lemma arcUpdate_isTeleporting (a : Arccaster) (cast : SegmentCast)
    (validate : Intersection → Bool) (w : World) (angle : ℚ) :
    (arcUpdate a cast validate w angle).isTeleporting = w.isTeleporting := by
  simp only [arcUpdate]
  cases h : (a.intersectObject cast w.arcPos w.arcRot).intersection with
  | some i => cases hv : validate i <;> simp [hv]
  | none => simp

lemma controlsUpdate_isTeleporting (a : Arccaster) (cast : SegmentCast)
    (w : World) (cp : Vec3) (cq : Quat) (ang : ℚ) :
    (controlsUpdate a cast w cp cq ang).isTeleporting = w.isTeleporting := by
  simp only [controlsUpdate]
  cases ht : w.isTeleporting with
  | true => simp [ht, arcUpdate_isTeleporting]
  | false => simp [ht]

lemma frameUpdate_idle_invariant (a : Arccaster) (cast : SegmentCast)
    (w : World) (cp : Vec3) (cq : Quat) (x y ang : ℚ)
    (hw : w.isTeleporting = false → w.lineVisible = false ∧
      w.markerVisible = false) :
    (frameUpdate a cast w cp cq x y ang).isTeleporting = false →
      (frameUpdate a cast w cp cq x y ang).lineVisible = false ∧
      (frameUpdate a cast w cp cq x y ang).markerVisible = false := by
  unfold frameUpdate
  split_ifs with h1 h2 h3 h4 h5
  · simp [commitControls, stopControls]
  · simp [cancelControls, stopControls]
  · simp [controlsUpdate_isTeleporting, h2]
  · simp [startControls]
  · exact hw
  · exact hw

/-- C3: the per-frame driving policy.  In Idle, stick axes `(0.1, 0.1)`
(magnitude below 0.5) leave the state Idle, while `(0.4, 0.4)` (magnitude
about 0.566) start aiming.  In Aiming with axes exactly `(0, 0)`: a visible
marker commits — the state becomes Idle and exactly one `setOffset` call is
recorded, carrying the marker position and the stored angle — while a
hidden marker cancels, the state becoming Idle with no `setOffset` call.
Finally `cancel()` on an idle controller whose visuals are hidden (as in
every reachable Idle state, see `frameUpdate_idle_invariant`) changes
nothing. -/
theorem driving_policy :
    (∀ (a : Arccaster) (cast : SegmentCast) (w : World) (cp : Vec3)
        (cq : Quat) (ang : ℚ), w.connected = true → w.isTeleporting = false →
      (frameUpdate a cast w cp cq (1 / 10) (1 / 10) ang).isTeleporting =
        false) ∧
    (∀ (a : Arccaster) (cast : SegmentCast) (w : World) (cp : Vec3)
        (cq : Quat) (ang : ℚ), w.connected = true → w.isTeleporting = false →
      (frameUpdate a cast w cp cq (2 / 5) (2 / 5) ang).isTeleporting =
        true) ∧
    (∀ (a : Arccaster) (cast : SegmentCast) (w : World) (cp : Vec3)
        (cq : Quat) (ang : ℚ), w.connected = true → w.isTeleporting = true →
        w.markerVisible = true →
      (frameUpdate a cast w cp cq 0 0 ang).isTeleporting = false ∧
      (frameUpdate a cast w cp cq 0 0 ang).offsetLog =
        w.offsetLog ++ [(w.markerPos, w.teleportationAngle)]) ∧
    (∀ (a : Arccaster) (cast : SegmentCast) (w : World) (cp : Vec3)
        (cq : Quat) (ang : ℚ), w.connected = true → w.isTeleporting = true →
        w.markerVisible = false →
      (frameUpdate a cast w cp cq 0 0 ang).isTeleporting = false ∧
      (frameUpdate a cast w cp cq 0 0 ang).offsetLog = w.offsetLog) ∧
    (∀ w : World, w.isTeleporting = false → w.lineVisible = false →
        w.markerVisible = false → cancelControls w = w) := by
  refine ⟨?_, ?_, ?_, ?_, ?_⟩
  · intro a cast w cp cq ang hc ht
    norm_num [frameUpdate, hc, ht]
  · intro a cast w cp cq ang hc ht
    norm_num [frameUpdate, hc, ht, startControls]
  · intro a cast w cp cq ang hc ht hm
    norm_num [frameUpdate, hc, ht, hm, commitControls, stopControls]
  · intro a cast w cp cq ang hc ht hm
    norm_num [frameUpdate, hc, ht, hm, cancelControls, stopControls]
  · intro w h1 h2 h3
    cases w
    simp only at h1 h2 h3
    subst h1; subst h2; subst h3
    rfl

/-- Witness for the C3 driving policy at concrete states: a connected idle
controller, a connected aiming controller with visible marker, and one with
hidden marker. -/
theorem driving_policy_witness :
    (frameUpdate (Arccaster.mk ⟨0, 0, 0⟩) castNone sampleIdleWorld ⟨0, 0, 0⟩
        ⟨0, 0, 0, 1⟩ (1 / 10) (1 / 10) 0).isTeleporting = false ∧
    (frameUpdate (Arccaster.mk ⟨0, 0, 0⟩) castNone sampleIdleWorld ⟨0, 0, 0⟩
        ⟨0, 0, 0, 1⟩ (2 / 5) (2 / 5) 0).isTeleporting = true ∧
    ((frameUpdate (Arccaster.mk ⟨0, 0, 0⟩) castNone sampleAimingVisible
        ⟨0, 0, 0⟩ ⟨0, 0, 0, 1⟩ 0 0 0).isTeleporting = false ∧
      (frameUpdate (Arccaster.mk ⟨0, 0, 0⟩) castNone sampleAimingVisible
        ⟨0, 0, 0⟩ ⟨0, 0, 0, 1⟩ 0 0 0).offsetLog =
        sampleAimingVisible.offsetLog ++
          [(sampleAimingVisible.markerPos,
            sampleAimingVisible.teleportationAngle)]) ∧
    ((frameUpdate (Arccaster.mk ⟨0, 0, 0⟩) castNone sampleAimingHidden
        ⟨0, 0, 0⟩ ⟨0, 0, 0, 1⟩ 0 0 0).isTeleporting = false ∧
      (frameUpdate (Arccaster.mk ⟨0, 0, 0⟩) castNone sampleAimingHidden
        ⟨0, 0, 0⟩ ⟨0, 0, 0, 1⟩ 0 0 0).offsetLog =
        sampleAimingHidden.offsetLog) ∧
    cancelControls sampleIdleWorld = sampleIdleWorld :=
  ⟨driving_policy.1 (Arccaster.mk ⟨0, 0, 0⟩) castNone sampleIdleWorld
      ⟨0, 0, 0⟩ ⟨0, 0, 0, 1⟩ 0 rfl rfl,
   driving_policy.2.1 (Arccaster.mk ⟨0, 0, 0⟩) castNone sampleIdleWorld
      ⟨0, 0, 0⟩ ⟨0, 0, 0, 1⟩ 0 rfl rfl,
   driving_policy.2.2.1 (Arccaster.mk ⟨0, 0, 0⟩) castNone sampleAimingVisible
      ⟨0, 0, 0⟩ ⟨0, 0, 0, 1⟩ 0 rfl rfl rfl,
   driving_policy.2.2.2.1 (Arccaster.mk ⟨0, 0, 0⟩) castNone
      sampleAimingHidden ⟨0, 0, 0⟩ ⟨0, 0, 0, 1⟩ 0 rfl rfl rfl,
   driving_policy.2.2.2.2 sampleIdleWorld rfl rfl rfl⟩

/-- C4: after every arc visualizer update the landing marker is visible iff
the trajectory produced a collision and that collision passes the validity
predicate; the default predicate accepts a hit exactly when its normal's
y-component exceeds 0.9, so normal y = 0.91 is accepted and y = 0.89 is
rejected. -/
theorem marker_visibility_iff :
    (∀ (a : Arccaster) (cast : SegmentCast) (validate : Intersection → Bool)
        (w : World) (angle : ℚ),
      (arcUpdate a cast validate w angle).markerVisible =
        (match (a.intersectObject cast w.arcPos w.arcRot).intersection with
         | some i => validate i
         | none => false)) ∧
    (∀ (p n : Vec3),
      isGroundIntersection ⟨p, some n⟩ = decide (9 / 10 < n.y)) ∧
    isGroundIntersection ⟨⟨0, 0, 0⟩, some ⟨0, 91 / 100, 0⟩⟩ = true ∧
    isGroundIntersection ⟨⟨0, 0, 0⟩, some ⟨0, 89 / 100, 0⟩⟩ = false := by
  refine ⟨?_, ?_, ?_, ?_⟩
  · intro a cast validate w angle
    simp only [arcUpdate]
    cases h : (a.intersectObject cast w.arcPos w.arcRot).intersection with
    | some i => cases hv : validate i <;> simp [h, hv]
    | none => simp [h]
  · intro p n; rfl
  · simp only [isGroundIntersection, decide_eq_true_eq]
    norm_num
  · simp only [isGroundIntersection, decide_eq_false_iff_not, not_lt]
    norm_num

/-- C6: the code does not implement the required disconnect behavior.  A
disconnect while Aiming only clears the connected controller: the state
machine stays Aiming, the arc polyline and the marker remain visible, and
the subsequent per-frame tick returns early without changing anything.
Only the active-frame part of the claim holds (the offset log is
untouched). -/
theorem disconnect_leaves_aiming :
    (handleControllerDisconnected sampleAimingVisible).isTeleporting =
      true ∧
    (handleControllerDisconnected sampleAimingVisible).lineVisible = true ∧
    (handleControllerDisconnected sampleAimingVisible).markerVisible =
      true ∧
    (handleControllerDisconnected sampleAimingVisible).offsetLog =
      sampleAimingVisible.offsetLog ∧
    frameUpdate (Arccaster.mk ⟨0, 0, 0⟩) castNone
        (handleControllerDisconnected sampleAimingVisible) ⟨0, 0, 0⟩
        ⟨0, 0, 0, 1⟩ (1 / 10) (1 / 10) 0 =
      handleControllerDisconnected sampleAimingVisible :=
  ⟨rfl, rfl, rfl, rfl, rfl⟩

/-- C7 (amended): while Idle, the locomotion update leaves the entire state
unchanged except that the drawn arc polyline is forced hidden: in
particular the trajectory simulator is not run (the ghost cast counter is
unchanged), no heading angle is stored, and the marker is not touched — its
visibility stays whatever it was, which is hidden in every reachable Idle
state (`frameUpdate_idle_invariant`). -/
theorem idle_update_effects (a : Arccaster) (cast : SegmentCast) (w : World)
    (cp : Vec3) (cq : Quat) (ang : ℚ) (h : w.isTeleporting = false) :
    controlsUpdate a cast w cp cq ang = { w with lineVisible := false } := by
  simp [controlsUpdate, h]

/-- Witness for the amended C7 theorem at a concrete idle state. -/
theorem idle_update_effects_witness :
    controlsUpdate (Arccaster.mk ⟨0, 0, 0⟩) castNone sampleIdleWorld
        ⟨0, 0, 0⟩ ⟨0, 0, 0, 1⟩ 0 =
      { sampleIdleWorld with lineVisible := false } :=
  idle_update_effects (Arccaster.mk ⟨0, 0, 0⟩) castNone sampleIdleWorld
    ⟨0, 0, 0⟩ ⟨0, 0, 0, 1⟩ 0 rfl

/-- C7 counterexample to the claim as stated: on an Idle state whose marker
happens to be visible, the locomotion update leaves the marker visible —
only the polyline is forced hidden — refuting that both the arc and the
marker are forced hidden while Idle. -/
theorem idle_update_marker_cex :
    (controlsUpdate (Arccaster.mk ⟨0, 0, 0⟩) castNone
        { sampleIdleWorld with markerVisible := true } ⟨0, 0, 0⟩
        ⟨0, 0, 0, 1⟩ 0).markerVisible = true := rfl

/-- C8: controller connection fails fast.  Constructing the connected
controller for a device without a gamepad, or whose gamepad exposes fewer
than 4 analog axes, raises at connect time; and a second connected event
for a slot that already holds a connected controller raises instead of
overwriting it. -/
theorem connect_fails_fast :
    (∀ inputSource : XRInputSource, inputSource.gamepad = none →
      mkConnectedController inputSource = .error "Gamepad not available") ∧
    (∀ (inputSource : XRInputSource) (g : Gamepad),
      inputSource.gamepad = some g → g.axes.length < 4 →
      mkConnectedController inputSource =
        .error "Gamepad axes not available") ∧
    (∀ (c : ThreeXRConnectedController) (data : XRInputSource),
      handleControllerConnected (some c) data =
        .error "Controller already connected") := by
  refine ⟨?_, ?_, ?_⟩
  · intro inputSource h
    simp [mkConnectedController, h]
  · intro inputSource g h hlen
    simp [mkConnectedController, h, hlen]
  · intro c data
    rfl

/-- Witness for the C8 connection failures at concrete devices: a gaze
device without a gamepad, a tracked pointer whose gamepad has 3 axes, and
an occupied controller slot. -/
theorem connect_fails_fast_witness :
    mkConnectedController ⟨.gaze, none⟩ = .error "Gamepad not available" ∧
    mkConnectedController ⟨.trackedPointer, some ⟨[0, 0, 0], []⟩⟩ =
      .error "Gamepad axes not available" ∧
    handleControllerConnected
        (some ⟨⟨[0, 0, 0, 0], []⟩, .gazeRing⟩) ⟨.gaze, none⟩ =
      .error "Controller already connected" :=
  ⟨connect_fails_fast.1 ⟨.gaze, none⟩ rfl,
   connect_fails_fast.2.1 ⟨.trackedPointer, some ⟨[0, 0, 0], []⟩⟩
      ⟨[0, 0, 0], []⟩ rfl (by simp),
   connect_fails_fast.2.2 ⟨⟨[0, 0, 0, 0], []⟩, .gazeRing⟩ ⟨.gaze, none⟩⟩

/-- C9: the default landing-validity predicate is total on hits that carry
no surface normal: the missing normal is treated as y-component 0, which
does not exceed 0.9, so the hit is rejected (and the marker stays hidden)
rather than anything failing. -/
theorem missing_normal_rejected (p : Vec3) :
    isGroundIntersection ⟨p, none⟩ = false := by
  simp only [isGroundIntersection, decide_eq_false_iff_not, not_lt]
  norm_num

lemma head?_of_take_one {α : Type} {l : List α} {a : α}
    (h : l.take 1 = [a]) : l.head? = some a := by
  cases l with
  | nil => simp at h
  | cons b t =>
    simp only [List.take_succ_cons, List.take_zero, List.cons.injEq] at h
    simp [h.1]

/-- C10: the caller-visible values of the vector arguments survive the
calls: the trajectory returned by `Arccaster.intersectObject` starts at the
given position (the source clones it before integrating), and committing a
teleport — which passes `marker.position` to `setOffset`, where it is
copied into a fresh vector before being negated and rotated — leaves the
marker position unchanged. -/
theorem no_argument_mutation :
    (∀ w : World, (commitControls w).markerPos = w.markerPos) ∧
    (∀ (a : Arccaster) (cast : SegmentCast) (p : Vec3) (q : Quat),
      (a.intersectObject cast p q).trace.head? = some p) := by
  refine ⟨fun w => rfl, ?_⟩
  intro a cast p q
  apply head?_of_take_one
  rw [Arccaster.intersectObject, arcLoop_trace_take a.gravity cast 50 _ _
    [p] 1 (by simp)]
  rfl
